import Mathlib

/-!
Verification of the OneToN dataset adapter
(`ampligraph/datasets/oneton_adapter.py`).

The adapter maps knowledge-graph triples `(subject, predicate, object)` to
mini-batches pairing triple slices with dense multi-label one-hot matrices.
This file gives a shallow embedding of the adapter: its mutable state is the
`Adapter` structure, methods become explicit state-passing functions, numpy
arrays become lists (`List Triple` for a dataset, `List (List Nat)` for a
one-hot matrix), Python dictionaries keyed by strings become functions
`String -> Option _`, and the `(subject, predicate) -> [objects]` output
dictionary (absent key meaning an empty list via `dict.get(key, [])`)
becomes a total function `OutMap`.  Runtime errors the Python code can raise
(`ValueError`, `KeyError`, `AttributeError` on `None`, bare `Exception`)
become an explicit `PyError` result; a Python generator becomes the list of
everything it yields, with an error raised mid-iteration surfacing as the
overall error of the run.
-/

/-- A mapped triple `(subject_idx, predicate_idx, object_idx)`. -/
abbrev Triple := Nat × Nat × Nat

/-- The output-mapping dictionary: `(subject, predicate)` to the object list.
Lookup of an absent key yields `[]`, matching `output_dict.get((s, p), [])`. -/
abbrev OutMap := (Nat × Nat) → List Nat

/-- The kinds of exception the Python source can raise. -/
inductive PyError where
  /-- `KeyError`: a dictionary is indexed at a missing key. -/
  | keyError
  /-- `ValueError`: the descriptive configuration errors the adapter raises. -/
  | valueError
  /-- `AttributeError`: attribute lookup (such as `.get`) on `None`. -/
  | attributeError
  /-- A bare `Exception` (raised by `set_data` on an invalid call shape). -/
  | pyException
deriving DecidableEq, Repr

/-- The argument passed for one dataset: either a numpy `ndarray`, modelled as
its list of rows, or a value of some other type (failing the
`type(data) != np.ndarray` check in `_validate_data`). -/
inductive PyData where
  | ndarray (rows : List (List Nat))
  | other
deriving Repr

/-- The first argument of `set_data`: a dictionary bundle of named datasets or
a single dataset. -/
inductive PyDataInput where
  | dict (entries : List (String × PyData))
  | single (d : PyData)

/-- The adapter state: the fields set in `OneToNDatasetAdapter.__init__`
together with the base-class (`NumpyDatasetAdapter`) fields this file needs.
`ent_to_idx` and `rel_to_idx` model `list(dict.values())` of the index
dictionaries, in insertion order; their lengths are the dictionary sizes. -/
structure Adapter where
  dataset : String → Option (List Triple)
  mapped_status : String → Option Bool
  filter_mapping : Option OutMap
  filtered_status : String → Option Bool
  output_mapping : Option OutMap
  output_onehot : String → Option (List (List Nat))
  low_memory : Bool
  ent_to_idx : List Nat
  rel_to_idx : List Nat

/-- `__init__(low_memory)`: the freshly constructed adapter. -/
def initAdapter (low_memory : Bool) : Adapter :=
  { dataset := fun _ => none
    mapped_status := fun _ => none
    filter_mapping := none
    filtered_status := fun _ => none
    output_mapping := none
    output_onehot := fun _ => none
    low_memory := low_memory
    ent_to_idx := []
    rel_to_idx := [] }

/-- Modelled from the spec: `map_data` of the external `NumpyDatasetAdapter`
(not under `src/`) "triggers index assignment for all unmapped datasets; must
be idempotent and safe to call when data is already mapped".  In this
index-space embedding stored triples already hold indices, so mapping marks
every registered dataset as mapped and leaves the stored triples unchanged. -/
def map_data (st : Adapter) : Adapter :=
  { st with
    mapped_status := fun k =>
      match st.mapped_status k with
      | some _ => some true
      | none => none }

/-- One row of a one-hot matrix: width `numEnt`, with `1` at every column
listed in `indices` and `0` elsewhere (`row[indices] = 1` over `np.zeros`). -/
def onehotRow (numEnt : Nat) (indices : List Nat) : List Nat :=
  (List.range numEnt).map (fun j => if j ∈ indices then 1 else 0)

/-- The eager one-hot matrix for a dataset: row `i` is the one-hot row of the
`(subject, predicate)` lookup of triple `i` (the loop in
`generate_onehot_outputs`). -/
def onehotMatrix (numEnt : Nat) (m : OutMap) (ds : List Triple) : List (List Nat) :=
  ds.map (fun t => onehotRow numEnt (m (t.1, t.2.1)))

/-- The numpy slice `a[i*bs : (i+1)*bs]`. -/
def sliceB (l : List α) (i bs : Nat) : List α :=
  (l.drop (i * bs)).take bs

/-- Batch sizing of `get_next_batch`: `batches_count = -1` means batch size 1
with one batch per row; otherwise the batch size is
`int(np.ceil(n / batches_count))`, here `(n + k - 1) / k` over `Nat`.
Returns `(batch_size, batches_count)`. -/
def batchDims (batches_count : Int) (n : Nat) : Nat × Nat :=
  if batches_count = -1 then (1, n)
  else ((n + batches_count.toNat - 1) / batches_count.toNat, batches_count.toNat)

/-- `np.shape(data)[1]` for a rectangular row-list model of an `ndarray`. -/
def npShape1 (rows : List (List Nat)) : Nat :=
  (rows.headD []).length

/-- A validated 3-column row array read back as triples. -/
def toTriples (rows : List (List Nat)) : List Triple :=
  rows.map (fun r => (r.headD 0, (r.drop 1).headD 0, (r.drop 2).headD 0))

/-- `_validate_data`: rejects non-`ndarray` input and input whose column
count differs from 3; returns the raised error, if any. -/
def validate_data : PyData → Option PyError
  | .other => some .valueError
  | .ndarray rows => if npShape1 rows ≠ 3 then some .valueError else none

/-- The two assignments performed per dataset in `set_data`:
`self.dataset[k] = data` and `self.mapped_status[k] = mapped_status`. -/
def assignData (st : Adapter) (k : String) (rows : List (List Nat)) (ms : Bool) : Adapter :=
  { st with
    dataset := fun x => if x = k then some (toTriples rows) else st.dataset x
    mapped_status := fun x => if x = k then some ms else st.mapped_status x }

/-- One `(key, data)` entry assignment; only reached after validation, so the
`other` arm is never taken on any executed path. -/
def assignEntry (st : Adapter) (e : String × PyData) (ms : Bool) : Adapter :=
  match e.2 with
  | .ndarray rows => assignData st e.1 rows ms
  | .other => st

/-- The dictionary branch of `set_data`: for each entry in order, validate it
and, if valid, assign it; a failing entry raises at once, leaving the
assignments already made in place. -/
def setDataDict (st : Adapter) (ms : Bool) : List (String × PyData) → Adapter × Option PyError
  | [] => (st, none)
  | e :: rest =>
    match validate_data e.2 with
    | some err => (st, some err)
    | none => setDataDict (assignEntry st e ms) ms rest

/-- The tail of `set_data`: if both index vocabularies are non-empty, map the
freshly set data. -/
def finalMap (st : Adapter) : Adapter :=
  if st.rel_to_idx.isEmpty || st.ent_to_idx.isEmpty then st else map_data st

/-- `set_data(dataset, dataset_type, mapped_status)`.  Returns the state after
the call together with the error it raised, if any. -/
def set_data (st : Adapter) (input : PyDataInput) (dtype : Option String) (ms : Bool) :
    Adapter × Option PyError :=
  match input with
  | .dict entries =>
    match setDataDict st ms entries with
    | (st1, some e) => (st1, some e)
    | (st1, none) => (finalMap st1, none)
  | .single dd =>
    match dtype with
    | some t =>
      match validate_data dd with
      | some e => (st, some e)
      | none => (finalMap (assignEntry st (t, dd) ms), none)
    | none => (st, some .pyException)

/-- One step of `output_mapping.setdefault((s, p), []).append(o)`. -/
def addTriple (m : OutMap) (t : Triple) : OutMap :=
  fun k => if k = (t.1, t.2.1) then m k ++ [t.2.2] else m k

/-- The grouping loop of `generate_output_mapping` over an (already mapped)
dataset: objects grouped by `(subject, predicate)` key, in iteration order. -/
def generate_output_mapping (ds : List Triple) : OutMap :=
  ds.foldl addTriple (fun _ => [])

/-- `generate_output_mapping(dataset_type)` at the adapter level: maps the
dataset first when unmapped, then builds the grouping dictionary. -/
def generate_output_mapping_adapter (st : Adapter) (d : String) :
    Except PyError (OutMap × Adapter) :=
  match st.mapped_status d with
  | none => .error .keyError
  | some m0 =>
    let st1 := if m0 then st else map_data st
    match st1.dataset d with
    | none => .error .keyError
    | some ds => .ok (generate_output_mapping ds, st1)

/-- `set_output_mapping(output_dict)`: installs the mapping and clears the
entire one-hot cache. -/
def set_output_mapping (st : Adapter) (m : OutMap) : Adapter :=
  { st with
    output_mapping := some m
    output_onehot := fun _ => none }

/-- `set_filter(filter_triples, mapped_status)`: registers the triples under
the "filter" role via `set_data`, then builds and stores the filter mapping. -/
def set_filter (st : Adapter) (ft : PyData) (ms : Bool) : Adapter × Option PyError :=
  match set_data st (.single ft) (some "filter") ms with
  | (st1, some e) => (st1, some e)
  | (st1, none) =>
    match generate_output_mapping_adapter st1 "filter" with
    | .error e => (st1, some e)
    | .ok (m, st2) => ({ st2 with filter_mapping := some m }, none)

/-- The cache write of eager `generate_onehot_outputs`: stores the dense
matrix for `d` and records the filter flag it was built with. -/
def writeOnehot (st : Adapter) (d : String) (use_filter : Bool) (m : OutMap)
    (ds : List Triple) : Adapter :=
  { st with
    output_onehot := fun x =>
      if x = d then some (onehotMatrix st.ent_to_idx.length m ds) else st.output_onehot x
    filtered_status := fun x =>
      if x = d then some use_filter else st.filtered_status x }

/-- `generate_onehot_outputs(dataset_type, use_filter)`: unknown dataset and
missing mapping raise `ValueError`; eager mode writes the cache, low-memory
mode is a pass. -/
def generate_onehot_outputs (st : Adapter) (d : String) (use_filter : Bool) :
    Except PyError Adapter :=
  match st.dataset d with
  | none => .error .valueError
  | some ds =>
    match (if use_filter then st.filter_mapping else st.output_mapping) with
    | none => .error .valueError
    | some m =>
      if st.low_memory then .ok st
      else .ok (writeOnehot st d use_filter m ds)

/-- One `(triples, onehot)` batch. -/
abbrev Batch := List Triple × List (List Nat)

/-- The eager yield loop of `get_next_batch`: batch `i` pairs the dataset
slice with the identical slice of the cached matrix. -/
def eagerYield (ds : List Triple) (M : List (List Nat)) (bs bc : Nat) : List Batch :=
  (List.range bc).map (fun i => (sliceB ds i bs, sliceB M i bs))

/-- The low-memory yield loop: batch `i` slices the triples and computes its
one-hot rows on the fly from `od`.  With `od = None`, `.get` on `None` raises
`AttributeError` — but only when the batch is non-empty, since the inner row
loop is what performs the lookup. -/
def lowMemYield (od : Option OutMap) (numEnt : Nat) (ds : List Triple) (bs : Nat) :
    List Nat → Except PyError (List Batch)
  | [] => .ok []
  | i :: is =>
    match od, sliceB ds i bs with
    | none, _ :: _ => .error .attributeError
    | _, [] =>
      (fun r => (([] : List Triple), ([] : List (List Nat))) :: r) <$>
        lowMemYield od numEnt ds bs is
    | some m, out =>
      (fun r => (out, out.map (fun x => onehotRow numEnt (m (x.1, x.2.1)))) :: r) <$>
        lowMemYield od numEnt ds bs is

/-- `get_next_batch(batches_count, dataset_type, use_filter)`: the full run of
the generator, returning every yielded batch and the post-run state. -/
def get_next_batch (st : Adapter) (batches_count : Int) (d : String) (use_filter : Bool) :
    Except PyError (List Batch × Adapter) :=
  match st.mapped_status d with
  | none => .error .keyError
  | some m0 =>
    let st1 := if m0 then st else map_data st
    match st1.dataset d with
    | none => .error .keyError
    | some ds =>
      let bs := (batchDims batches_count ds.length).1
      let bc := (batchDims batches_count ds.length).2
      if use_filter && st1.filter_mapping.isNone then .error .valueError
      else if st1.low_memory then
        let od := if use_filter then st1.filter_mapping else st1.output_mapping
        match lowMemYield od st1.ent_to_idx.length ds bs (List.range bc) with
        | .error e => .error e
        | .ok bl => .ok (bl, st1)
      else
        match st1.output_onehot d with
        | none =>
          match generate_onehot_outputs st1 d use_filter with
          | .error e => .error e
          | .ok st2 =>
            match st2.output_onehot d with
            | none => .error .keyError
            | some M => .ok (eagerYield ds M bs bc, st2)
        | some M =>
          if use_filter then
            match st1.filtered_status d with
            | none => .error .keyError
            | some f =>
              if f then .ok (eagerYield ds M bs bc, st1)
              else
                match generate_onehot_outputs st1 d use_filter with
                | .error e => .error e
                | .ok st2 =>
                  match st2.output_onehot d with
                  | none => .error .keyError
                  | some M2 => .ok (eagerYield ds M2 bs bc, st2)
          else .ok (eagerYield ds M bs bc, st1)

/-- The `while ent_idx < len(ent_list)` chunking: successive slices
`ent_list[ent_idx : ent_idx + bs]`.  The recursion is fuelled by the list
length, which suffices for every `bs ≥ 1`; `bs = 0` on a non-empty list does
not terminate in the source and is never exercised by any claim. -/
def chunkListAux (bs : Nat) : Nat → List Nat → List (List Nat)
  | _, [] => []
  | 0, _ :: _ => []
  | fuel + 1, l => l.take bs :: chunkListAux bs fuel (l.drop bs)

/-- All chunks of the entity list taken by the subject-corruption loop. -/
def chunkList (bs : Nat) (l : List Nat) : List (List Nat) :=
  chunkListAux bs l.length l

/-- One yielded tuple of the subject-corruption generator:
`(test_triples, synthetic_subject_batch, filter_onehot_batch)`. -/
abbrev SubjTuple := List Triple × List Triple × List (List Nat)

/-- The per-relation inner loop of `get_next_batch_subject_corruptions`: for
each entity chunk, the synthetic triples `(entity, rel, 0)` and their filter
rows via `output_dict.get` — which raises `AttributeError` when the selected
mapping is `None` and the chunk is non-empty. -/
def subjCorrForRel (od : Option OutMap) (numEnt : Nat) (rel : Nat) (test : List Triple) :
    List (List Nat) → Except PyError (List SubjTuple)
  | [] => .ok []
  | ents :: rest =>
    match od, ents.map (fun e : Nat => ((e, rel, 0) : Triple)) with
    | none, _ :: _ => .error .attributeError
    | _, [] =>
      (fun r => (test, ([] : List Triple), ([] : List (List Nat))) :: r) <$>
        subjCorrForRel od numEnt rel test rest
    | some m, out =>
      (fun r => (test, out, out.map (fun x => onehotRow numEnt (m (x.1, x.2.1)))) :: r) <$>
        subjCorrForRel od numEnt rel test rest

/-- The outer loop over `rel_list`: the test triples with this predicate,
then all entity chunks for this relation, flattened in yield order. -/
def subjCorrAll (ds : List Triple) (od : Option OutMap) (numEnt bs : Nat)
    (ents : List Nat) : List Nat → Except PyError (List SubjTuple)
  | [] => .ok []
  | rel :: rels =>
    match subjCorrForRel od numEnt rel (ds.filter (fun t => t.2.1 == rel)) (chunkList bs ents) with
    | .error e => .error e
    | .ok cur =>
      match subjCorrAll ds od numEnt bs ents rels with
      | .error e => .error e
      | .ok rest => .ok (cur ++ rest)

/-- `get_next_batch_subject_corruptions(batch_size, dataset_type, use_filter)`:
the full run of the generator.  `batch_size = -1` becomes the size of the
named dataset; the selected mapping is taken without a presence check. -/
def get_next_batch_subject_corruptions (st : Adapter) (batch_size : Int) (d : String)
    (use_filter : Bool) : Except PyError (List SubjTuple) :=
  let od := if use_filter then st.filter_mapping else st.output_mapping
  match st.dataset d with
  | none => .error .keyError
  | some ds =>
    let bs := if batch_size = -1 then ds.length else batch_size.toNat
    subjCorrAll ds od st.ent_to_idx.length bs st.ent_to_idx st.rel_to_idx

/-! ## Basic lemmas about the pure building blocks -/

lemma foldl_addTriple : ∀ (ds : List Triple) (m : OutMap) (s p : Nat),
    ds.foldl addTriple m (s, p) =
      m (s, p) ++ (ds.filter (fun t => t.1 == s && t.2.1 == p)).map (fun t => t.2.2)
  | [], m, s, p => by simp
  | t :: ts, m, s, p => by
    rw [List.foldl_cons, foldl_addTriple ts (addTriple m t) s p]
    by_cases h : t.1 = s ∧ t.2.1 = p
    · obtain ⟨h1, h2⟩ := h
      subst h1; subst h2
      simp [addTriple, List.filter_cons]
    · have hpred : (t.1 == s && t.2.1 == p) = false := by
        rcases not_and_or.mp h with h1 | h2
        · simp [h1]
        · simp [h2]
      have haddt : addTriple m t (s, p) = m (s, p) := by
        have : ¬((s, p) = (t.1, t.2.1)) := by
          intro he
          exact h ⟨(Prod.mk.injEq .. ▸ he).1.symm, (Prod.mk.injEq .. ▸ he).2.symm⟩
        simp [addTriple, this]
      rw [haddt, List.filter_cons, hpred]
      simp

lemma generate_output_mapping_eq (ds : List Triple) (s p : Nat) :
    generate_output_mapping ds (s, p) =
      (ds.filter (fun t => t.1 == s && t.2.1 == p)).map (fun t => t.2.2) := by
  rw [generate_output_mapping, foldl_addTriple]
  simp

lemma sliceB_length (l : List α) (i bs : Nat) :
    (sliceB l i bs).length = min bs (l.length - i * bs) := by
  simp [sliceB]

lemma sliceB_map (f : α → β) (l : List α) (i bs : Nat) :
    sliceB (l.map f) i bs = (sliceB l i bs).map f := by
  simp [sliceB, List.map_take, List.map_drop]

lemma sliceB_succ (l : List α) (i bs : Nat) :
    sliceB l (i + 1) bs = sliceB (l.drop bs) i bs := by
  simp [sliceB, List.drop_drop]
  ring_nf

lemma flatten_slices (bs : Nat) : ∀ (k : Nat) (l : List α),
    ((List.range k).map (fun i => sliceB l i bs)).flatten = l.take (k * bs)
  | 0, l => by simp
  | k + 1, l => by
    rw [List.range_succ_eq_map]
    simp only [List.map_cons, List.map_map, List.flatten_cons]
    have hrec : ((List.range k).map ((fun i => sliceB l i bs) ∘ Nat.succ)).flatten
        = (l.drop bs).take (k * bs) := by
      have hcomp : ((fun i => sliceB l i bs) ∘ Nat.succ)
          = fun i => sliceB (l.drop bs) i bs := by
        funext i
        simp [Function.comp, Nat.succ_eq_add_one, sliceB_succ]
      rw [hcomp, flatten_slices bs k (l.drop bs)]
    rw [hrec]
    have h0 : sliceB l 0 bs = l.take bs := by simp [sliceB]
    rw [h0, ← List.take_add]
    congr 1
    ring

lemma ceil_mul_ge (n k : Nat) (hk : 1 ≤ k) : n ≤ k * ((n + k - 1) / k) := by
  have h1 := Nat.div_add_mod (n + k - 1) k
  have h2 : (n + k - 1) % k < k := Nat.mod_lt _ hk
  set q := (n + k - 1) / k with hq
  set r := (n + k - 1) % k with hr
  have h3 : k * q + r = n + k - 1 := h1
  revert h3
  generalize k * q = t
  omega

/-! ## Path lemmas for `get_next_batch` -/

lemma get_next_batch_serves_cache (st : Adapter) (k : Int) (d : String) (ds : List Triple)
    (M : List (List Nat)) (u : Bool)
    (hms : st.mapped_status d = some true) (hds : st.dataset d = some ds)
    (hlm : st.low_memory = false) (hM : st.output_onehot d = some M)
    (hu : u = false ∨ (st.filter_mapping.isNone = false ∧ st.filtered_status d = some true)) :
    get_next_batch st k d u = .ok
      (eagerYield ds M (batchDims k ds.length).1 (batchDims k ds.length).2, st) := by
  rcases hu with hu | ⟨hf, hfs⟩
  · subst hu
    simp [get_next_batch, hms, hds, hlm, hM]
  · cases u
    · simp [get_next_batch, hms, hds, hlm, hM]
    · simp [get_next_batch, hms, hds, hlm, hM, hf, hfs]

lemma get_next_batch_regen (st : Adapter) (k : Int) (d : String) (ds : List Triple)
    (m : OutMap) (u : Bool)
    (hms : st.mapped_status d = some true) (hds : st.dataset d = some ds)
    (hlm : st.low_memory = false)
    (hsel : (if u then st.filter_mapping else st.output_mapping) = some m)
    (hre : st.output_onehot d = none ∨ (st.filtered_status d = some false ∧ u = true)) :
    get_next_batch st k d u = .ok
      (eagerYield ds (onehotMatrix st.ent_to_idx.length m ds) (batchDims k ds.length).1
        (batchDims k ds.length).2,
       writeOnehot st d u m ds) := by
  have hfnotnone : u = true → st.filter_mapping.isNone = false := by
    intro hu
    rw [hu] at hsel
    simp at hsel
    simp [hsel]
  rcases hre with hc | ⟨hfs, hu⟩
  · cases u
    · simp at hsel
      simp [get_next_batch, hms, hds, hlm, hc, generate_onehot_outputs, hsel, writeOnehot]
    · have hf := hfnotnone rfl
      simp at hsel
      simp [get_next_batch, hms, hds, hlm, hc, hf, generate_onehot_outputs, hsel, writeOnehot]
  · subst hu
    have hf := hfnotnone rfl
    simp at hsel
    cases hc : st.output_onehot d with
    | none =>
      simp [get_next_batch, hms, hds, hlm, hc, hf, generate_onehot_outputs, hsel, writeOnehot]
    | some M0 =>
      simp [get_next_batch, hms, hds, hlm, hc, hf, hfs, generate_onehot_outputs, hsel, writeOnehot]

lemma lowMemYield_some (m : OutMap) (E : Nat) (ds : List Triple) (bs : Nat) :
    ∀ is : List Nat, lowMemYield (some m) E ds bs is = .ok (is.map (fun i =>
      (sliceB ds i bs, (sliceB ds i bs).map (fun x => onehotRow E (m (x.1, x.2.1))))))
  | [] => by simp [lowMemYield]
  | i :: is => by
    cases hout : sliceB ds i bs with
    | nil =>
      simp only [lowMemYield, hout, lowMemYield_some m E ds bs is]
      simp [Except.map, hout]
    | cons a l =>
      simp only [lowMemYield, hout, lowMemYield_some m E ds bs is]
      simp [Except.map, hout]

lemma eagerYield_onehotMatrix (ds : List Triple) (E : Nat) (m : OutMap) (bs bc : Nat) :
    eagerYield ds (onehotMatrix E m ds) bs bc = (List.range bc).map (fun i =>
      (sliceB ds i bs, (sliceB ds i bs).map (fun x => onehotRow E (m (x.1, x.2.1))))) := by
  unfold eagerYield onehotMatrix
  refine List.map_congr_left (fun i _ => ?_)
  rw [sliceB_map]

lemma get_next_batch_lowmem (st : Adapter) (k : Int) (d : String) (ds : List Triple)
    (m : OutMap) (u : Bool)
    (hms : st.mapped_status d = some true) (hds : st.dataset d = some ds)
    (hlm : st.low_memory = true)
    (hsel : (if u then st.filter_mapping else st.output_mapping) = some m) :
    get_next_batch st k d u = .ok
      (eagerYield ds (onehotMatrix st.ent_to_idx.length m ds) (batchDims k ds.length).1
        (batchDims k ds.length).2, st) := by
  have hfnotnone : u = true → st.filter_mapping.isNone = false := by
    intro hu
    rw [hu] at hsel
    simp at hsel
    simp [hsel]
  rw [eagerYield_onehotMatrix]
  cases u
  · simp at hsel
    simp [get_next_batch, hms, hds, hlm, hsel, lowMemYield_some]
  · have hf := hfnotnone rfl
    simp at hsel
    simp [get_next_batch, hms, hds, hlm, hf, hsel, lowMemYield_some]

/-! ## Concrete states used by witnesses and counterexamples -/

/-- The spec's concrete scenario dataset: entities `0,1,2`, relation `0`. -/
def ds0 : List Triple := [(0, 0, 1), (0, 0, 2), (1, 0, 2)]

/-- An adapter with `ds0` registered as "train" and its output mapping set,
eager mode, empty one-hot cache. -/
def stEx : Adapter :=
  { dataset := fun x => if x = "train" then some ds0 else none
    mapped_status := fun x => if x = "train" then some true else none
    filter_mapping := none
    filtered_status := fun _ => none
    output_mapping := some (generate_output_mapping ds0)
    output_onehot := fun _ => none
    low_memory := false
    ent_to_idx := [0, 1, 2]
    rel_to_idx := [0] }

/-- The same configuration in low-memory mode. -/
def stLx : Adapter := { stEx with low_memory := true }

/-! ## C1 -/

/-- C1: for the same registered datasets, output mapping and filter mapping
(and a fresh one-hot cache on the eager side), iterating `get_next_batch`
with `low_memory = True` yields exactly the same `(triples, onehot)` batches
as with `low_memory = False`, for every dataset name, filter mode and batch
partitioning. -/
theorem eager_lowmem_equivalence (stE stL : Adapter) (k : Int) (d : String)
    (ds : List Triple) (m : OutMap) (u : Bool)
    (hmsE : stE.mapped_status d = some true) (hmsL : stL.mapped_status d = some true)
    (hdsE : stE.dataset d = some ds) (hdsL : stL.dataset d = some ds)
    (hlmE : stE.low_memory = false) (hlmL : stL.low_memory = true)
    (hselE : (if u then stE.filter_mapping else stE.output_mapping) = some m)
    (hselL : (if u then stL.filter_mapping else stL.output_mapping) = some m)
    (hent : stE.ent_to_idx.length = stL.ent_to_idx.length)
    (hcache : stE.output_onehot d = none) :
    get_next_batch stE k d u = .ok
      (eagerYield ds (onehotMatrix stE.ent_to_idx.length m ds) (batchDims k ds.length).1
        (batchDims k ds.length).2, writeOnehot stE d u m ds) ∧
    get_next_batch stL k d u = .ok
      (eagerYield ds (onehotMatrix stE.ent_to_idx.length m ds) (batchDims k ds.length).1
        (batchDims k ds.length).2, stL) := by
  constructor
  · exact get_next_batch_regen stE k d ds m u hmsE hdsE hlmE hselE (Or.inl hcache)
  · rw [hent]
    exact get_next_batch_lowmem stL k d ds m u hmsL hdsL hlmL hselL

/-- Witness for C1 at the spec's concrete scenario, two batches. -/
theorem eager_lowmem_equivalence_witness :
    get_next_batch stEx 2 "train" false = .ok
      (eagerYield ds0 (onehotMatrix stEx.ent_to_idx.length (generate_output_mapping ds0) ds0)
        (batchDims 2 ds0.length).1 (batchDims 2 ds0.length).2,
       writeOnehot stEx "train" false (generate_output_mapping ds0) ds0) ∧
    get_next_batch stLx 2 "train" false = .ok
      (eagerYield ds0 (onehotMatrix stEx.ent_to_idx.length (generate_output_mapping ds0) ds0)
        (batchDims 2 ds0.length).1 (batchDims 2 ds0.length).2, stLx) :=
  eager_lowmem_equivalence stEx stLx 2 "train" ds0 (generate_output_mapping ds0) false
    rfl rfl rfl rfl rfl rfl rfl rfl rfl rfl

/-! ## C2 -/

/-- C2 (amended): a cached one-hot matrix is regenerated before any batch is
yielded exactly when the cache entry is missing, or when `use_filter = True`
and the cache was built without the filter.  In the other mismatch direction
— cache built with the filter, request with `use_filter = False` — the
cached filtered matrix is served unchanged, with no regeneration. -/
theorem get_next_batch_cache_policy (st : Adapter) (k : Int) (d : String) (ds : List Triple)
    (M : List (List Nat)) (f : Bool) (fm : OutMap)
    (hms : st.mapped_status d = some true) (hds : st.dataset d = some ds)
    (hlm : st.low_memory = false) (hM : st.output_onehot d = some M)
    (hfs : st.filtered_status d = some f) :
    (get_next_batch st k d false = .ok
      (eagerYield ds M (batchDims k ds.length).1 (batchDims k ds.length).2, st)) ∧
    (f = true → st.filter_mapping = some fm → get_next_batch st k d true = .ok
      (eagerYield ds M (batchDims k ds.length).1 (batchDims k ds.length).2, st)) ∧
    (f = false → st.filter_mapping = some fm → get_next_batch st k d true = .ok
      (eagerYield ds (onehotMatrix st.ent_to_idx.length fm ds) (batchDims k ds.length).1
        (batchDims k ds.length).2, writeOnehot st d true fm ds)) := by
  refine ⟨?_, ?_, ?_⟩
  · exact get_next_batch_serves_cache st k d ds M false hms hds hlm hM (Or.inl rfl)
  · intro hf hfm
    subst hf
    exact get_next_batch_serves_cache st k d ds M true hms hds hlm hM
      (Or.inr ⟨by simp [hfm], hfs⟩)
  · intro hf hfm
    subst hf
    exact get_next_batch_regen st k d ds fm true hms hds hlm (by simp [hfm])
      (Or.inr ⟨hfs, rfl⟩)

/-- A filter mapping marking entity 0 for key `(0, 0)`. -/
def fmCE : OutMap := fun kk => if kk = (0, 0) then [0] else []

/-- An output mapping marking entity 1 for key `(0, 0)`. -/
def omCE : OutMap := fun kk => if kk = (0, 0) then [1] else []

/-- An adapter whose "train" one-hot cache `[[1, 0]]` was built with the
filter (`filtered_status = True`), while the unfiltered mapping would give
`[[0, 1]]`. -/
def stCE : Adapter :=
  { dataset := fun x => if x = "train" then some [(0, 0, 1)] else none
    mapped_status := fun x => if x = "train" then some true else none
    filter_mapping := some fmCE
    filtered_status := fun x => if x = "train" then some true else none
    output_mapping := some omCE
    output_onehot := fun x => if x = "train" then some [[1, 0]] else none
    low_memory := false
    ent_to_idx := [0, 1]
    rel_to_idx := [0] }

/-- Counterexample to C2 as stated: the cache was built with the filter
(`filtered_status "train" = some true`) and the request is unfiltered
(`use_filter = false`), yet `get_next_batch` serves the cached filtered
matrix `[[1, 0]]` with the state unchanged (no regeneration), even though a
rebuild from the requested (unfiltered) mapping would give `[[0, 1]]`. -/
theorem get_next_batch_cache_policy_counterexample :
    stCE.filtered_status "train" = some true ∧
    get_next_batch stCE (-1) "train" false = .ok ([([(0, 0, 1)], [[1, 0]])], stCE) ∧
    onehotMatrix stCE.ent_to_idx.length omCE [(0, 0, 1)] = [[0, 1]] ∧
    ([[1, 0]] : List (List Nat)) ≠ [[0, 1]] := by
  refine ⟨rfl, ?_, by decide, by decide⟩
  rfl

/-- Witness for C2 (amended) at `stCE`: the unfiltered request serves the
filtered cache, and a filtered request over an unfiltered cache regenerates. -/
theorem get_next_batch_cache_policy_witness :
    (get_next_batch stCE (-1) "train" false = .ok
      (eagerYield [(0, 0, 1)] [[1, 0]] (batchDims (-1) [(0, 0, 1)].length).1
        (batchDims (-1) [(0, 0, 1)].length).2, stCE)) ∧
    (true = true → stCE.filter_mapping = some fmCE → get_next_batch stCE (-1) "train" true = .ok
      (eagerYield [(0, 0, 1)] [[1, 0]] (batchDims (-1) [(0, 0, 1)].length).1
        (batchDims (-1) [(0, 0, 1)].length).2, stCE)) ∧
    (true = false → stCE.filter_mapping = some fmCE → get_next_batch stCE (-1) "train" true = .ok
      (eagerYield [(0, 0, 1)] (onehotMatrix stCE.ent_to_idx.length fmCE [(0, 0, 1)])
        (batchDims (-1) [(0, 0, 1)].length).1 (batchDims (-1) [(0, 0, 1)].length).2,
       writeOnehot stCE "train" true fmCE [(0, 0, 1)])) :=
  get_next_batch_cache_policy stCE (-1) "train" [(0, 0, 1)] [[1, 0]] true fmCE
    rfl rfl rfl rfl rfl

/-! ## C3 -/

/-- C3: `set_output_mapping` empties the entire one-hot cache, so a
subsequent eager `get_next_batch` request rebuilds the one-hot matrix from
the newly installed mapping — every yielded one-hot batch is a slice of
`onehotMatrix` of the new mapping, never a stale cached row. -/
theorem set_output_mapping_invalidates (st : Adapter) (m : OutMap) (k : Int) (d : String)
    (ds : List Triple)
    (hms : st.mapped_status d = some true) (hds : st.dataset d = some ds)
    (hlm : st.low_memory = false) :
    ((set_output_mapping st m).output_onehot = fun _ => none) ∧
    get_next_batch (set_output_mapping st m) k d false = .ok
      (eagerYield ds (onehotMatrix st.ent_to_idx.length m ds) (batchDims k ds.length).1
        (batchDims k ds.length).2,
       writeOnehot (set_output_mapping st m) d false m ds) := by
  constructor
  · rfl
  · exact get_next_batch_regen (set_output_mapping st m) k d ds m false hms hds hlm rfl
      (Or.inl rfl)

/-- Witness for C3: `stCE` has a cached (filtered) matrix for "train"; after
`set_output_mapping` the whole cache is empty and the served batches come
from the new mapping. -/
theorem set_output_mapping_invalidates_witness :
    ((set_output_mapping stCE omCE).output_onehot = fun _ => none) ∧
    get_next_batch (set_output_mapping stCE omCE) (-1) "train" false = .ok
      (eagerYield [(0, 0, 1)] (onehotMatrix stCE.ent_to_idx.length omCE [(0, 0, 1)])
        (batchDims (-1) [(0, 0, 1)].length).1 (batchDims (-1) [(0, 0, 1)].length).2,
       writeOnehot (set_output_mapping stCE omCE) "train" false omCE [(0, 0, 1)]) :=
  set_output_mapping_invalidates stCE omCE (-1) "train" [(0, 0, 1)] rfl rfl rfl

/-! ## C4 -/

/-- The adapter fields that `set_data`, `map_data` and
`generate_output_mapping` never write. -/
def SideFields (st st1 : Adapter) : Prop :=
  st1.output_onehot = st.output_onehot ∧ st1.filtered_status = st.filtered_status ∧
  st1.low_memory = st.low_memory ∧ st1.ent_to_idx = st.ent_to_idx ∧
  st1.rel_to_idx = st.rel_to_idx

lemma sideFields_refl (st : Adapter) : SideFields st st :=
  ⟨rfl, rfl, rfl, rfl, rfl⟩

lemma sideFields_trans {st1 st2 st3 : Adapter}
    (h1 : SideFields st1 st2) (h2 : SideFields st2 st3) : SideFields st1 st3 := by
  obtain ⟨a1, b1, c1, d1, e1⟩ := h1
  obtain ⟨a2, b2, c2, d2, e2⟩ := h2
  exact ⟨a2.trans a1, b2.trans b1, c2.trans c1, d2.trans d1, e2.trans e1⟩

lemma assignEntry_sideFields (st : Adapter) (e : String × PyData) (ms : Bool) :
    SideFields st (assignEntry st e ms) := by
  obtain ⟨k, dd⟩ := e
  cases dd <;> exact ⟨rfl, rfl, rfl, rfl, rfl⟩

lemma map_data_sideFields (st : Adapter) : SideFields st (map_data st) :=
  ⟨rfl, rfl, rfl, rfl, rfl⟩

lemma finalMap_sideFields (st : Adapter) : SideFields st (finalMap st) := by
  unfold finalMap
  by_cases h : (st.rel_to_idx.isEmpty || st.ent_to_idx.isEmpty) = true
  · rw [if_pos h]; exact sideFields_refl st
  · rw [if_neg h]; exact map_data_sideFields st

lemma setDataDict_sideFields (ms : Bool) :
    ∀ (entries : List (String × PyData)) (st : Adapter),
      SideFields st (setDataDict st ms entries).1
  | [], st => sideFields_refl st
  | e :: rest, st => by
    unfold setDataDict
    cases validate_data e.2 with
    | some err => exact sideFields_refl st
    | none =>
      exact sideFields_trans (assignEntry_sideFields st e ms)
        (setDataDict_sideFields ms rest (assignEntry st e ms))

lemma set_data_sideFields (st : Adapter) (input : PyDataInput) (dtype : Option String)
    (ms : Bool) : SideFields st (set_data st input dtype ms).1 := by
  cases input with
  | dict entries =>
    have h := setDataDict_sideFields ms entries st
    cases hsd : setDataDict st ms entries with
    | mk st1 e =>
      rw [hsd] at h
      cases e with
      | some e0 =>
        simp only [set_data, hsd]
        exact h
      | none =>
        simp only [set_data, hsd]
        exact sideFields_trans h (finalMap_sideFields st1)
  | single dd =>
    cases dtype with
    | none => exact sideFields_refl st
    | some t =>
      cases hv : validate_data dd with
      | some e0 =>
        simp only [set_data, hv]
        exact sideFields_refl st
      | none =>
        simp only [set_data, hv]
        exact sideFields_trans (assignEntry_sideFields st (t, dd) ms)
          (finalMap_sideFields (assignEntry st (t, dd) ms))

lemma generate_output_mapping_adapter_sideFields (st : Adapter) (d : String)
    (m : OutMap) (st2 : Adapter)
    (h : generate_output_mapping_adapter st d = .ok (m, st2)) : SideFields st st2 := by
  cases hms : st.mapped_status d with
  | none => simp [generate_output_mapping_adapter, hms] at h
  | some m0 =>
    cases m0 with
    | true =>
      cases hds : st.dataset d with
      | none => simp [generate_output_mapping_adapter, hms, hds] at h
      | some ds =>
        simp [generate_output_mapping_adapter, hms, hds] at h
        obtain ⟨h1, h2⟩ := h
        subst h2
        exact sideFields_refl st
    | false =>
      cases hds : (map_data st).dataset d with
      | none => simp [generate_output_mapping_adapter, hms, hds] at h
      | some ds =>
        simp [generate_output_mapping_adapter, hms, hds] at h
        obtain ⟨h1, h2⟩ := h
        subst h2
        exact map_data_sideFields st

lemma set_filter_fields (st st1 : Adapter) (ft : PyData) (ms : Bool)
    (hcall : set_filter st ft ms = (st1, none)) :
    SideFields st st1 ∧ ∃ fm, st1.filter_mapping = some fm := by
  unfold set_filter at hcall
  have hsd := set_data_sideFields st (.single ft) (some "filter") ms
  cases hsdv : set_data st (.single ft) (some "filter") ms with
  | mk stA e =>
    rw [hsdv] at hcall
    rw [hsdv] at hsd
    cases e with
    | some e0 => simp at hcall
    | none =>
      simp only at hcall
      cases hgo : generate_output_mapping_adapter stA "filter" with
      | error e0 => rw [hgo] at hcall; simp at hcall
      | ok pr =>
        obtain ⟨m, stB⟩ := pr
        rw [hgo] at hcall
        simp only [Prod.mk.injEq] at hcall
        have hgs := generate_output_mapping_adapter_sideFields stA "filter" m stB hgo
        have hupd : SideFields stB { stB with filter_mapping := some m } :=
          ⟨rfl, rfl, rfl, rfl, rfl⟩
        rw [← hcall.1]
        refine ⟨sideFields_trans (sideFields_trans hsd hgs) hupd, m, rfl⟩

/-- C4 (amended): `set_filter` installs the new filter mapping but does not
invalidate the one-hot cache: after a successful `set_filter`, a
`get_next_batch` request with `use_filter = True` for a dataset whose cache
is tagged as filtered serves exactly the one-hot rows cached before the call
(computed from the previous filter mapping). -/
theorem set_filter_preserves_onehot_cache (st st1 : Adapter) (ft : PyData) (ms : Bool)
    (k : Int) (d : String) (ds : List Triple) (M : List (List Nat))
    (hcall : set_filter st ft ms = (st1, none))
    (hlm : st.low_memory = false)
    (hM : st.output_onehot d = some M) (hfs : st.filtered_status d = some true)
    (hms1 : st1.mapped_status d = some true) (hds1 : st1.dataset d = some ds) :
    st1.output_onehot d = some M ∧
    get_next_batch st1 k d true = .ok
      (eagerYield ds M (batchDims k ds.length).1 (batchDims k ds.length).2, st1) := by
  obtain ⟨⟨hoh, hfst, hlm1, _, _⟩, fm, hfm⟩ := set_filter_fields st st1 ft ms hcall
  have hM1 : st1.output_onehot d = some M := by rw [hoh]; exact hM
  refine ⟨hM1, ?_⟩
  exact get_next_batch_serves_cache st1 k d ds M true hms1 hds1 (hlm1.trans hlm) hM1
    (Or.inr ⟨by simp [hfm], by rw [hfst]; exact hfs⟩)

/-- Counterexample to C4 as stated: `stCE` holds a one-hot row `[[1, 0]]` for
"train" cached from the old filter mapping.  `set_filter` with new filter
triples `[[0, 0, 1]]` succeeds and installs the new mapping (whose one-hot
matrix would be `[[0, 1]]`), yet the next `get_next_batch` with
`use_filter = True` still serves the pre-call cached row `[[1, 0]]`. -/
theorem set_filter_cache_not_invalidated_counterexample :
    (set_filter stCE (.ndarray [[0, 0, 1]]) true).2 = none ∧
    (set_filter stCE (.ndarray [[0, 0, 1]]) true).1.output_onehot "train" = some [[1, 0]] ∧
    ((set_filter stCE (.ndarray [[0, 0, 1]]) true).1.filter_mapping.map
      (fun fm => fm (0, 0))) = some [1] ∧
    get_next_batch (set_filter stCE (.ndarray [[0, 0, 1]]) true).1 (-1) "train" true =
      .ok ([([(0, 0, 1)], [[1, 0]])], (set_filter stCE (.ndarray [[0, 0, 1]]) true).1) ∧
    onehotMatrix 2 (generate_output_mapping (toTriples [[0, 0, 1]])) [(0, 0, 1)] = [[0, 1]] ∧
    ([[1, 0]] : List (List Nat)) ≠ [[0, 1]] := by
  refine ⟨rfl, rfl, rfl, ?_, by decide, by decide⟩
  rfl

/-- Witness for C4 (amended) at `stCE`. -/
theorem set_filter_preserves_onehot_cache_witness :
    (set_filter stCE (.ndarray [[0, 0, 1]]) true).1.output_onehot "train" = some [[1, 0]] ∧
    get_next_batch (set_filter stCE (.ndarray [[0, 0, 1]]) true).1 (-1) "train" true = .ok
      (eagerYield [(0, 0, 1)] [[1, 0]] (batchDims (-1) [(0, 0, 1)].length).1
        (batchDims (-1) [(0, 0, 1)].length).2,
       (set_filter stCE (.ndarray [[0, 0, 1]]) true).1) :=
  set_filter_preserves_onehot_cache stCE (set_filter stCE (.ndarray [[0, 0, 1]]) true).1
    (.ndarray [[0, 0, 1]]) true (-1) "train" [(0, 0, 1)] [[1, 0]] rfl rfl rfl rfl rfl rfl

/-! ## C5 -/

lemma batchDims_natCast (k n : Nat) : batchDims (k : Int) n = ((n + k - 1) / k, k) := by
  unfold batchDims
  have h : ¬((k : Int) = -1) := by omega
  rw [if_neg h]
  simp

/-- C5 (amended): for `batches_count = k > 1` over a dataset of size `n`,
`get_next_batch` yields `k` batches; batch `i` has
`min (ceil(n/k)) (n - i*ceil(n/k))` triple rows — a prefix of batches of
`ceil(n/k)` rows, then possibly shorter and then empty trailing batches (not
only the final batch may fall short) — and the triple batches concatenated
in yield order equal exactly the original dataset. -/
theorem get_next_batch_partition (st : Adapter) (d : String) (ds : List Triple)
    (m : OutMap) (k : Nat) (hk : 1 < k)
    (hms : st.mapped_status d = some true) (hds : st.dataset d = some ds)
    (hlm : st.low_memory = false) (hom : st.output_mapping = some m)
    (hcache : st.output_onehot d = none) :
    get_next_batch st (k : Int) d false = .ok
      (eagerYield ds (onehotMatrix st.ent_to_idx.length m ds) ((ds.length + k - 1) / k) k,
       writeOnehot st d false m ds) ∧
    (eagerYield ds (onehotMatrix st.ent_to_idx.length m ds) ((ds.length + k - 1) / k) k).map
        Prod.fst =
      (List.range k).map (fun i => sliceB ds i ((ds.length + k - 1) / k)) ∧
    (∀ i : Nat, (sliceB ds i ((ds.length + k - 1) / k)).length =
      min ((ds.length + k - 1) / k) (ds.length - i * ((ds.length + k - 1) / k))) ∧
    ((List.range k).map (fun i => sliceB ds i ((ds.length + k - 1) / k))).flatten = ds := by
  refine ⟨?_, ?_, fun i => sliceB_length ds i _, ?_⟩
  · have h := get_next_batch_regen st (k : Int) d ds m false hms hds hlm hom (Or.inl hcache)
    rw [batchDims_natCast] at h
    exact h
  · simp [eagerYield, List.map_map]
  · rw [flatten_slices]
    apply List.take_of_length_le
    calc ds.length ≤ k * ((ds.length + k - 1) / k) := ceil_mul_ge ds.length k (by omega)
    _ = (k * ((ds.length + k - 1) / k)) := rfl

/-- A 5-row dataset for the C5 counterexample. -/
def ds5 : List Triple := [(0, 0, 1), (0, 0, 2), (1, 0, 2), (2, 0, 0), (2, 0, 1)]

/-- Eager adapter over `ds5` with its output mapping set and an empty cache. -/
def stC5 : Adapter :=
  { dataset := fun x => if x = "train" then some ds5 else none
    mapped_status := fun x => if x = "train" then some true else none
    filter_mapping := none
    filtered_status := fun _ => none
    output_mapping := some (generate_output_mapping ds5)
    output_onehot := fun _ => none
    low_memory := false
    ent_to_idx := [0, 1, 2]
    rel_to_idx := [0] }

/-- Counterexample to C5 as stated: with `n = 5` and `k = 4` the batch size
is `ceil(5/4) = 2` and the yielded triple batches have sizes `[2, 2, 1, 0]`:
the third batch (not the final one) is already shorter than 2, so "every
batch except possibly the final one has `ceil(n/k)` rows" fails. -/
theorem get_next_batch_partition_counterexample :
    (get_next_batch stC5 4 "train" false).map (fun r => r.1.map (fun b => b.1.length)) =
      .ok [2, 2, 1, 0] ∧
    (batchDims 4 ds5.length).1 = 2 ∧
    ¬(([2, 2, 1, 0] : List Nat).take 3 = [2, 2, 2]) := by
  refine ⟨?_, by decide, by decide⟩
  rfl

/-- Witness for C5 (amended) at `stC5` with `k = 4`. -/
theorem get_next_batch_partition_witness :
    get_next_batch stC5 ((4 : Nat) : Int) "train" false = .ok
      (eagerYield ds5 (onehotMatrix stC5.ent_to_idx.length (generate_output_mapping ds5) ds5)
        ((ds5.length + 4 - 1) / 4) 4,
       writeOnehot stC5 "train" false (generate_output_mapping ds5) ds5) ∧
    (eagerYield ds5 (onehotMatrix stC5.ent_to_idx.length (generate_output_mapping ds5) ds5)
        ((ds5.length + 4 - 1) / 4) 4).map Prod.fst =
      (List.range 4).map (fun i => sliceB ds5 i ((ds5.length + 4 - 1) / 4)) ∧
    (∀ i : Nat, (sliceB ds5 i ((ds5.length + 4 - 1) / 4)).length =
      min ((ds5.length + 4 - 1) / 4) (ds5.length - i * ((ds5.length + 4 - 1) / 4))) ∧
    ((List.range 4).map (fun i => sliceB ds5 i ((ds5.length + 4 - 1) / 4))).flatten = ds5 :=
  get_next_batch_partition stC5 "train" ds5 (generate_output_mapping ds5) 4 (by decide)
    rfl rfl rfl rfl rfl

/-! ## C6 -/

/-- C6: for every triple `(s, p, o)` of a mapped dataset,
`generate_output_mapping` contains `o` in the value list of key `(s, p)`;
moreover the value list of each key is exactly the objects of the matching
triples in dataset iteration order — so duplicates are preserved and
insertion order follows the dataset. -/
theorem generate_output_mapping_complete (ds : List Triple) (s p : Nat) (t : Triple)
    (ht : t ∈ ds) (hs : t.1 = s) (hp : t.2.1 = p) :
    t.2.2 ∈ generate_output_mapping ds (s, p) ∧
    generate_output_mapping ds (s, p) =
      (ds.filter (fun x => x.1 == s && x.2.1 == p)).map (fun x => x.2.2) := by
  refine ⟨?_, generate_output_mapping_eq ds s p⟩
  rw [generate_output_mapping_eq]
  exact List.mem_map_of_mem _ (List.mem_filter.mpr ⟨ht, by simp [hs, hp]⟩)

/-- Witness for C6 at the spec's concrete dataset `ds0`: key `(0, 0)` stores
`[1, 2]` (both objects, in dataset order) and contains the object of the
duplicate-keyed triple `(0, 0, 2)`. -/
theorem generate_output_mapping_complete_witness :
    ((0, 0, 2) : Triple).2.2 ∈ generate_output_mapping ds0 (0, 0) ∧
    generate_output_mapping ds0 (0, 0) =
      (ds0.filter (fun x => x.1 == 0 && x.2.1 == 0)).map (fun x => x.2.2) :=
  generate_output_mapping_complete ds0 0 0 (0, 0, 2) (by decide) rfl rfl

/-! ## Chunking lemmas for the subject-corruption loop -/

lemma chunkListAux_congr (bs : Nat) (hbs : 1 ≤ bs) :
    ∀ (f1 f2 : Nat) (l : List Nat), l.length ≤ f1 → l.length ≤ f2 →
      chunkListAux bs f1 l = chunkListAux bs f2 l
  | f1, f2, [], _, _ => by cases f1 <;> cases f2 <;> rfl
  | 0, _, a :: t, h1, _ => by simp at h1
  | _ + 1, 0, a :: t, _, h2 => by simp at h2
  | f1 + 1, f2 + 1, a :: t, h1, h2 => by
    show (a :: t).take bs :: chunkListAux bs f1 ((a :: t).drop bs) =
      (a :: t).take bs :: chunkListAux bs f2 ((a :: t).drop bs)
    have h1' : t.length + 1 ≤ f1 + 1 := by simpa using h1
    have h2' : t.length + 1 ≤ f2 + 1 := by simpa using h2
    congr 1
    refine chunkListAux_congr bs hbs f1 f2 ((a :: t).drop bs) ?_ ?_ <;>
      simp only [List.length_drop, List.length_cons] <;> omega

lemma chunkList_cons (bs : Nat) (l : List Nat) (hbs : 1 ≤ bs) (hl : l ≠ []) :
    chunkList bs l = l.take bs :: chunkList bs (l.drop bs) := by
  cases l with
  | nil => exact absurd rfl hl
  | cons a t =>
    show chunkListAux bs (t.length + 1) (a :: t) = _
    have hstep : chunkListAux bs (t.length + 1) (a :: t) =
        (a :: t).take bs :: chunkListAux bs t.length ((a :: t).drop bs) := rfl
    rw [hstep]
    congr 1
    exact chunkListAux_congr bs hbs t.length ((a :: t).drop bs).length ((a :: t).drop bs)
      (by simp only [List.length_drop, List.length_cons]; omega) (le_refl _)

lemma chunkList_of_length_le (bs : Nat) (l : List Nat) (hl : l ≠ []) (hbs : l.length ≤ bs) :
    chunkList bs l = [l] := by
  have h1 : 1 ≤ bs := by
    cases l with
    | nil => exact absurd rfl hl
    | cons a t => simp at hbs; omega
  rw [chunkList_cons bs l h1 hl, List.take_of_length_le hbs, List.drop_eq_nil_of_le hbs]
  rfl

/-! ## Yield lemmas for the subject-corruption generator -/

lemma subjCorrForRel_some (m : OutMap) (E rel : Nat) (test : List Triple) :
    ∀ cs : List (List Nat), subjCorrForRel (some m) E rel test cs = .ok (cs.map (fun c =>
      (test, c.map (fun e : Nat => ((e, rel, 0) : Triple)),
        c.map (fun e => onehotRow E (m (e, rel))))))
  | [] => by simp [subjCorrForRel]
  | c :: cs => by
    cases hc : c with
    | nil =>
      simp only [subjCorrForRel, hc, subjCorrForRel_some m E rel test cs]
      simp [Except.map]
    | cons a l =>
      simp only [subjCorrForRel, hc, subjCorrForRel_some m E rel test cs]
      simp [Except.map, List.map_map]

lemma subjCorrAll_some (ds : List Triple) (m : OutMap) (E bs : Nat) (ents : List Nat) :
    ∀ rels : List Nat, subjCorrAll ds (some m) E bs ents rels = .ok ((rels.map (fun rel =>
      (chunkList bs ents).map (fun c =>
        (ds.filter (fun t => t.2.1 == rel), c.map (fun e : Nat => ((e, rel, 0) : Triple)),
          c.map (fun e => onehotRow E (m (e, rel))))))).flatten)
  | [] => by simp [subjCorrAll]
  | rel :: rels => by
    simp only [subjCorrAll, subjCorrForRel_some, subjCorrAll_some ds m E bs ents rels]
    simp

/-! ## C7 -/

/-- C7 (amended): with `batch_size` unspecified (`-1`), the chunk size
becomes the size of the named dataset — not the entity-vocabulary size — so
each relation's subject candidates are the entire entity vocabulary in
exactly one chunk precisely when the dataset has at least as many rows as
there are entities (here stated under that hypothesis). -/
theorem subject_corruptions_default_chunk (st : Adapter) (d : String) (ds : List Triple)
    (m : OutMap) (u : Bool)
    (hds : st.dataset d = some ds)
    (hsel : (if u then st.filter_mapping else st.output_mapping) = some m)
    (hent : st.ent_to_idx ≠ []) (hn : st.ent_to_idx.length ≤ ds.length) :
    get_next_batch_subject_corruptions st (-1) d u = .ok ((st.rel_to_idx.map (fun rel =>
      [(ds.filter (fun t => t.2.1 == rel),
        st.ent_to_idx.map (fun e : Nat => ((e, rel, 0) : Triple)),
        st.ent_to_idx.map (fun e => onehotRow st.ent_to_idx.length (m (e, rel))))])).flatten) := by
  simp only [get_next_batch_subject_corruptions, hds, hsel, if_pos rfl, if_true]
  rw [subjCorrAll_some, chunkList_of_length_le ds.length st.ent_to_idx hent hn]
  simp

/-- Adapter for the C7 counterexample: one-row dataset, three entities. -/
def stC7 : Adapter :=
  { dataset := fun x => if x = "test" then some [(0, 0, 1)] else none
    mapped_status := fun x => if x = "test" then some true else none
    filter_mapping := some (generate_output_mapping [(0, 0, 1)])
    filtered_status := fun _ => none
    output_mapping := none
    output_onehot := fun _ => none
    low_memory := false
    ent_to_idx := [0, 1, 2]
    rel_to_idx := [0] }

/-- Counterexample to C7 as stated: with `batch_size = -1`, a dataset of
size 1 and 3 entities, the single relation's subject candidates come in
three chunks of one entity each — not in one chunk holding the whole entity
vocabulary. -/
theorem subject_corruptions_default_chunk_counterexample :
    stC7.ent_to_idx.length = 3 ∧
    (get_next_batch_subject_corruptions stC7 (-1) "test" true).map
        (fun L => L.map (fun x => x.2.1)) =
      .ok [[(0, 0, 0)], [(1, 0, 0)], [(2, 0, 0)]] ∧
    (get_next_batch_subject_corruptions stC7 (-1) "test" true).map List.length = .ok 3 ∧
    (3 : Nat) ≠ 1 := by
  refine ⟨rfl, rfl, rfl, by decide⟩

/-- Witness for C7 (amended) at `stEx` (3-row dataset, 3 entities): one
chunk holding the whole vocabulary. -/
theorem subject_corruptions_default_chunk_witness :
    get_next_batch_subject_corruptions stEx (-1) "train" false = .ok
      ((stEx.rel_to_idx.map (fun rel =>
        [(ds0.filter (fun t => t.2.1 == rel),
          stEx.ent_to_idx.map (fun e : Nat => ((e, rel, 0) : Triple)),
          stEx.ent_to_idx.map (fun e => onehotRow stEx.ent_to_idx.length
            (generate_output_mapping ds0 (e, rel))))])).flatten) :=
  subject_corruptions_default_chunk stEx "train" ds0 (generate_output_mapping ds0) false
    rfl rfl (by decide) (by decide)

/-! ## C8 -/

/-- C8: `get_next_batch_subject_corruptions` yields at least one
`(test_triples, synthetic_batch, filter_onehot)` tuple for every relation in
the relation vocabulary, with the test triples being exactly the named
dataset's triples whose predicate is that relation (possibly none), and a
non-empty synthetic subject batch.  (Chunk sizes for the concrete
3-entities / 1-relation / `batch_size = 2` scenario are in the witness.) -/
theorem subject_corruptions_every_relation (st : Adapter) (d : String) (ds : List Triple)
    (m : OutMap) (u : Bool) (bsz : Nat) (hbsz : 1 ≤ bsz)
    (hds : st.dataset d = some ds)
    (hsel : (if u then st.filter_mapping else st.output_mapping) = some m)
    (hent : st.ent_to_idx ≠ []) :
    ∃ L, get_next_batch_subject_corruptions st (bsz : Int) d u = .ok L ∧
      ∀ rel ∈ st.rel_to_idx, ∃ x ∈ L,
        x.1 = ds.filter (fun t => t.2.1 == rel) ∧ x.2.1 ≠ [] := by
  have hne : ¬((bsz : Int) = -1) := by omega
  have heq : get_next_batch_subject_corruptions st (bsz : Int) d u =
      .ok ((st.rel_to_idx.map (fun rel =>
        (chunkList bsz st.ent_to_idx).map (fun c =>
          (ds.filter (fun t => t.2.1 == rel), c.map (fun e : Nat => ((e, rel, 0) : Triple)),
            c.map (fun e => onehotRow st.ent_to_idx.length (m (e, rel))))))).flatten) := by
    simp only [get_next_batch_subject_corruptions, hds, hsel, if_neg hne]
    have htn : ((bsz : Int)).toNat = bsz := rfl
    rw [htn, subjCorrAll_some]
  refine ⟨_, heq, ?_⟩
  intro rel hrel
  have hch : chunkList bsz st.ent_to_idx =
      st.ent_to_idx.take bsz :: chunkList bsz (st.ent_to_idx.drop bsz) :=
    chunkList_cons bsz st.ent_to_idx hbsz hent
  have hEpos : 0 < st.ent_to_idx.length := List.length_pos.mpr hent
  have hcpos : 0 < (st.ent_to_idx.take bsz).length := by
    rw [List.length_take]
    omega
  have hcne : st.ent_to_idx.take bsz ≠ [] := List.length_pos.mp hcpos
  refine ⟨(ds.filter (fun t => t.2.1 == rel),
    (st.ent_to_idx.take bsz).map (fun e : Nat => ((e, rel, 0) : Triple)),
    (st.ent_to_idx.take bsz).map (fun e => onehotRow st.ent_to_idx.length (m (e, rel)))),
    ?_, rfl, by simpa using hcne⟩
  refine List.mem_flatten_of_mem (List.mem_map_of_mem _ hrel) ?_
  rw [hch]
  simp

/-- Adapter for the C8 witness: a registered dataset with no triple for the
single relation, three entities. -/
def stC8 : Adapter :=
  { dataset := fun x => if x = "test" then some [] else none
    mapped_status := fun x => if x = "test" then some true else none
    filter_mapping := some (fun _ => [])
    filtered_status := fun _ => none
    output_mapping := none
    output_onehot := fun _ => none
    low_memory := false
    ent_to_idx := [0, 1, 2]
    rel_to_idx := [0] }

/-- Witness for C8: the relation has no test triples yet still yields; with
3 entities, 1 relation and `batch_size = 2` the run is exactly two
synthetic-subject chunks of sizes 2 and 1, each filter matrix of width 3. -/
theorem subject_corruptions_every_relation_witness :
    (∃ L, get_next_batch_subject_corruptions stC8 ((2 : Nat) : Int) "test" true = .ok L ∧
      ∀ rel ∈ stC8.rel_to_idx, ∃ x ∈ L,
        x.1 = ([] : List Triple).filter (fun t => t.2.1 == rel) ∧ x.2.1 ≠ []) ∧
    get_next_batch_subject_corruptions stC8 2 "test" true = .ok
      [([], [(0, 0, 0), (1, 0, 0)], [[0, 0, 0], [0, 0, 0]]),
       ([], [(2, 0, 0)], [[0, 0, 0]])] :=
  ⟨subject_corruptions_every_relation stC8 "test" [] (fun _ => []) true 2 (by decide)
      rfl rfl (by decide), rfl⟩

/-! ## C9 -/

/-- The assignments performed for a list of already-validated entries. -/
def assignAll (st : Adapter) (ms : Bool) (entries : List (String × PyData)) : Adapter :=
  entries.foldl (fun s e => assignEntry s e ms) st

lemma setDataDict_split (ms : Bool) (err : PyError) :
    ∀ (pre : List (String × PyData)) (st : Adapter) (k : String) (dd : PyData)
      (rest : List (String × PyData)),
      (∀ e ∈ pre, validate_data e.2 = none) → validate_data dd = some err →
      setDataDict st ms (pre ++ (k, dd) :: rest) = (assignAll st ms pre, some err)
  | [], st, k, dd, rest, _, hbad => by
    simp only [List.nil_append, setDataDict, hbad, assignAll, List.foldl_nil]
  | e :: pre, st, k, dd, rest, hpre, hbad => by
    have he : validate_data e.2 = none := hpre e (by simp)
    simp only [List.cons_append, setDataDict, he]
    rw [List.append_eq]
    rw [setDataDict_split ms err pre (assignEntry st e ms) k dd rest
      (fun x hx => hpre x (by simp [hx])) hbad]
    simp [assignAll]

/-- C9 (amended): a single-array `set_data` call validates before any
mutation, leaving the state unchanged on failure; a dictionary-bundle call
validates each entry immediately before assigning it, so a malformed entry
aborts the call with every earlier entry already assigned (the malformed
entry and the following ones are not assigned). -/
theorem set_data_validation_order (st : Adapter) (pre : List (String × PyData)) (k : String)
    (dd : PyData) (rest : List (String × PyData)) (ms : Bool) (err : PyError)
    (hpre : ∀ e ∈ pre, validate_data e.2 = none) (hbad : validate_data dd = some err) :
    set_data st (.dict (pre ++ (k, dd) :: rest)) none ms = (assignAll st ms pre, some err) ∧
    (∀ (st1 : Adapter) (t : String) (dd1 : PyData) (e1 : PyError),
      validate_data dd1 = some e1 → set_data st1 (.single dd1) (some t) ms = (st1, some e1)) := by
  constructor
  · simp only [set_data, setDataDict_split ms err pre st k dd rest hpre hbad]
  · intro st1 t dd1 e1 hv
    simp [set_data, hv]

/-- Counterexample to C9 as stated: a bundle whose first entry is valid and
whose second is malformed raises the validation error, but the first entry
has already been assigned — the failing call did mutate the dataset (and
mapped-status) state for bundle entries validated before the malformed one. -/
theorem set_data_validation_order_counterexample :
    (set_data (initAdapter false) (.dict [("a", .ndarray [[0, 0, 1]]), ("b", .other)])
      none false).2 = some .valueError ∧
    (set_data (initAdapter false) (.dict [("a", .ndarray [[0, 0, 1]]), ("b", .other)])
      none false).1.dataset "a" = some [(0, 0, 1)] ∧
    (set_data (initAdapter false) (.dict [("a", .ndarray [[0, 0, 1]]), ("b", .other)])
      none false).1.mapped_status "a" = some false ∧
    (initAdapter false).dataset "a" = none ∧
    (initAdapter false).mapped_status "a" = none :=
  ⟨rfl, rfl, rfl, rfl, rfl⟩

/-- Witness for C9 (amended) at the concrete two-entry bundle. -/
theorem set_data_validation_order_witness :
    (set_data (initAdapter false) (.dict ([("a", .ndarray [[0, 0, 1]])] ++ ("b", .other) :: []))
        none false =
      (assignAll (initAdapter false) false [("a", .ndarray [[0, 0, 1]])], some .valueError)) ∧
    (∀ (st1 : Adapter) (t : String) (dd1 : PyData) (e1 : PyError),
      validate_data dd1 = some e1 →
        set_data st1 (.single dd1) (some t) false = (st1, some e1)) :=
  set_data_validation_order (initAdapter false) [("a", .ndarray [[0, 0, 1]])] "b" .other []
    false .valueError (by intro e he; simp at he; rw [he]; rfl) rfl

/-! ## C10 -/

lemma subjCorrForRel_none_error (E rel : Nat) (test : List Triple) (c : List Nat)
    (cs : List (List Nat)) (hc : c ≠ []) :
    subjCorrForRel none E rel test (c :: cs) = .error .attributeError := by
  cases c with
  | nil => exact absurd rfl hc
  | cons a l => rfl

lemma subjCorrAll_none_error (ds : List Triple) (E bs : Nat) (ents : List Nat)
    (rel : Nat) (rels : List Nat) (hbs : 1 ≤ bs) (hents : ents ≠ []) :
    subjCorrAll ds none E bs ents (rel :: rels) = .error .attributeError := by
  have hch := chunkList_cons bs ents hbs hents
  have hEpos : 0 < ents.length := List.length_pos.mpr hents
  have hcne : ents.take bs ≠ [] := by
    apply List.length_pos.mp
    rw [List.length_take]
    omega
  simp only [subjCorrAll, hch,
    subjCorrForRel_none_error E rel (ds.filter (fun t => t.2.1 == rel))
      (ents.take bs) (chunkList bs (ents.drop bs)) hcne]

/-- C10: pulling `get_next_batch_subject_corruptions` with its default
`use_filter = True` while no filter is registered — or with
`use_filter = False` while no output mapping is set — selects `None` as the
mapping and fails on the first batch with an attribute-lookup error on
`None`, not with the descriptive missing-filter / missing-mapping
`ValueError` that `get_next_batch` and `generate_onehot_outputs` raise. -/
theorem subject_corruptions_missing_mapping_error (st : Adapter) (d : String)
    (ds : List Triple) (bsz : Nat) (k : Int) (hbsz : 1 ≤ bsz)
    (hfm : st.filter_mapping = none) (hom : st.output_mapping = none)
    (hds : st.dataset d = some ds) (hms : st.mapped_status d = some true)
    (hent : st.ent_to_idx ≠ []) (hrel : st.rel_to_idx ≠ []) :
    get_next_batch_subject_corruptions st (bsz : Int) d true = .error .attributeError ∧
    get_next_batch_subject_corruptions st (bsz : Int) d false = .error .attributeError ∧
    get_next_batch st k d true = .error .valueError ∧
    generate_onehot_outputs st d true = .error .valueError ∧
    generate_onehot_outputs st d false = .error .valueError := by
  have hne : ¬((bsz : Int) = -1) := by omega
  have htn : ((bsz : Int)).toNat = bsz := rfl
  obtain ⟨r, rs, hR⟩ : ∃ r rs, st.rel_to_idx = r :: rs := by
    cases hR : st.rel_to_idx with
    | nil => exact absurd hR hrel
    | cons r rs => exact ⟨r, rs, rfl⟩
  refine ⟨?_, ?_, ?_, ?_, ?_⟩
  · simp only [get_next_batch_subject_corruptions, hds, hfm, if_neg hne, htn, hR, if_true]
    exact subjCorrAll_none_error ds st.ent_to_idx.length bsz st.ent_to_idx r rs hbsz hent
  · simp only [get_next_batch_subject_corruptions, hds, hom, if_neg hne, htn, hR,
      Bool.false_eq_true, if_false]
    exact subjCorrAll_none_error ds st.ent_to_idx.length bsz st.ent_to_idx r rs hbsz hent
  · simp [get_next_batch, hms, hds, hfm]
  · simp [generate_onehot_outputs, hds, hfm]
  · simp [generate_onehot_outputs, hds, hom]

/-- Adapter for the C10 witness: a registered, mapped dataset but neither a
filter mapping nor an output mapping. -/
def stC10 : Adapter :=
  { dataset := fun x => if x = "test" then some [(0, 0, 0)] else none
    mapped_status := fun x => if x = "test" then some true else none
    filter_mapping := none
    filtered_status := fun _ => none
    output_mapping := none
    output_onehot := fun _ => none
    low_memory := false
    ent_to_idx := [0]
    rel_to_idx := [0] }

/-- Witness for C10 at `stC10`. -/
theorem subject_corruptions_missing_mapping_error_witness :
    get_next_batch_subject_corruptions stC10 ((1 : Nat) : Int) "test" true =
      .error .attributeError ∧
    get_next_batch_subject_corruptions stC10 ((1 : Nat) : Int) "test" false =
      .error .attributeError ∧
    get_next_batch stC10 (-1) "test" true = .error .valueError ∧
    generate_onehot_outputs stC10 "test" true = .error .valueError ∧
    generate_onehot_outputs stC10 "test" false = .error .valueError :=
  subject_corruptions_missing_mapping_error stC10 "test" [(0, 0, 0)] 1 (-1) (by decide)
    rfl rfl rfl rfl (by decide) (by decide)
